import Mathlib

/-!
Verification of the LeadGenius lead-generation pipeline.

This file gives a shallow embedding, in Lean, of the scoring and
orchestration core of the repository: the LLM gateway (`_call_llm` in
`service_mcp.py`), the intent scorer (`_analyze_intent_score` in
`backend.py`), the comment-match analyzer (`_analyze_comment_match` and
`_analyze_comment_match_fallback` in `service_mcp.py`), the relevance
filter (`_is_post_relevant` in `platforms/reddit_platform.py`), the
comment-template engine (`_generate_smart_comment` in `service_mcp.py`),
the analyze flow (`analyze_product` in `backend.py`) and the promote flow
(`auto_promote_product` in `service_mcp.py`), and proves the spec's
properties about them.

Modelling conventions:
 - External collaborators (the LLM provider, the browser, the `json.loads`
   library call, the reply-dispatch action) are inputs: each embedded
   function takes the outcome of every external call it makes as an
   explicit argument, and the theorems quantify over all such outcomes.
 - Python strings are modelled through their character lists; the unicode
   case maps and the `\w` regex class are modelled by their ASCII
   behaviour (the scoring logic is insensitive to this choice).
 - Python floats carry only exact decimal values in this code
   (multiples of 0.1); they are modelled as rationals, with `min`/`max`
   written out as the order-based conditionals Python defines them as.
 - Python ints are unbounded and modelled as `Int`/`Nat`.
 - `random.choice(l)` is modelled as indexing `l` with an arbitrary
   injected index reduced modulo `l.length`, and `random.random() > p`
   as an arbitrary injected Boolean, so theorems hold for every draw.
-/

/-! ## String helpers (Python semantics over explicit character lists) -/

/-- ASCII lower-casing of one character, as Python `str.lower` acts on ASCII. -/
def lowerChar (c : Char) : Char :=
  if 'A' ≤ c ∧ c ≤ 'Z' then Char.ofNat (c.toNat + 32) else c

/-- ASCII upper-casing of one character, as Python `str.upper` acts on ASCII. -/
def upperChar (c : Char) : Char :=
  if 'a' ≤ c ∧ c ≤ 'z' then Char.ofNat (c.toNat - 32) else c

/-- Python `s.lower()` (ASCII model). -/
def toLowerStr (s : String) : String := String.mk (s.data.map lowerChar)

/-- Python `s.upper()` (ASCII model). -/
def toUpperStr (s : String) : String := String.mk (s.data.map upperChar)

/-- Whether `n` occurs as a contiguous sublist of the second argument. -/
def containsList (n : List Char) : List Char → Bool
  | [] => n.isEmpty
  | c :: t => n.isPrefixOf (c :: t) || containsList n t

/-- Python `needle in hay` on strings (substring containment). -/
def strContains (needle hay : String) : Bool := containsList needle.data hay.data

/-- Python `c in s` for a single character. -/
def charIn (c : Char) (s : String) : Bool := s.data.contains c

/-- Python whitespace, as `str.strip` removes it (ASCII whitespace). -/
def isPyWhite (c : Char) : Bool :=
  c = ' ' || c = '\t' || c = '\n' || c = '\x0d' || c = '\x0b' || c = '\x0c'

/-- Python `s.strip()`. -/
def pyStrip (s : String) : String :=
  String.mk (((s.data.dropWhile isPyWhite).reverse.dropWhile isPyWhite).reverse)

/-- Python `s[:n]` for `n ≥ 0`. -/
def pyTake (n : Nat) (s : String) : String := String.mk (s.data.take n)

/-- Helper of `splitOnChar`: accumulates the current piece in reverse. -/
def splitOnCharGo (sep : Char) : List Char → List Char → List (List Char)
  | [], cur => [cur.reverse]
  | c :: t, cur =>
      if c = sep then cur.reverse :: splitOnCharGo sep t []
      else splitOnCharGo sep t (c :: cur)

/-- Python `s.split(sep)` for a one-character separator. -/
def pySplit (s : String) (sep : Char) : List String :=
  (splitOnCharGo sep s.data []).map String.mk

/-- Python `min(a, b)` on rationals (floats carry exact values here). -/
def pyMin (a b : ℚ) : ℚ := if a ≤ b then a else b

/-- Python `max(a, b)` on rationals. -/
def pyMax (a b : ℚ) : ℚ := if b ≤ a then a else b

/-- Python `min(a, b)` on integers. -/
def pyMinI (a b : ℤ) : ℤ := if a ≤ b then a else b

/-- Python `max(a, b)` on integers. -/
def pyMaxI (a b : ℤ) : ℤ := if b ≤ a then a else b

/-- Helper of `tokenRuns`: accumulates the current run in reverse. -/
def tokenRunsGo (p : Char → Bool) : List Char → List Char → List (List Char)
  | [], cur => if cur.isEmpty then [] else [cur.reverse]
  | c :: t, cur =>
      if p c then tokenRunsGo p t (c :: cur)
      else if cur.isEmpty then tokenRunsGo p t []
      else cur.reverse :: tokenRunsGo p t []

/-- Maximal runs of characters satisfying `p`, in order: the matches of the
regex `p+` as `re.findall` returns them. -/
def tokenRuns (p : Char → Bool) (l : List Char) : List (List Char) :=
  tokenRunsGo p l []

/-- Python `re.findall(r'\d+', s)`: the maximal digit runs of `s`. -/
def digitRuns (s : String) : List String :=
  (tokenRuns Char.isDigit s.data).map String.mk

/-- Python `int` on a digit run. -/
def natOfDigits (l : List Char) : Nat :=
  l.foldl (fun a c => a * 10 + (c.toNat - 48)) 0

/-- The CJK range `[一-龥]` of the keyword-extraction regex. -/
def isCJK (c : Char) : Bool := 0x4e00 ≤ c.toNat && c.toNat ≤ 0x9fa5

/-- The regex class `\w` (ASCII model: alphanumerics and underscore). -/
def isWordChar (c : Char) : Bool := c.isAlphanum || c = '_'

/-- Which alternative of `[一-龥]+|\w+` a character belongs to. -/
def tokenClass (c : Char) : Option Bool :=
  if isCJK c then some true else if isWordChar c then some false else none

/-- Helper of `findallWords`: carries the class and reversed text of the
run in progress. -/
def wordRunsGo : List Char → Option (Bool × List Char) → List (List Char)
  | [], none => []
  | [], some (_, cur) => [cur.reverse]
  | c :: t, none =>
      match tokenClass c with
      | some k => wordRunsGo t (some (k, [c]))
      | none => wordRunsGo t none
  | c :: t, some (k, cur) =>
      if tokenClass c = some k then wordRunsGo t (some (k, c :: cur))
      else cur.reverse ::
        (match tokenClass c with
         | some k2 => wordRunsGo t (some (k2, [c]))
         | none => wordRunsGo t none)

/-- Python `re.findall(r'[一-龥]+|\w+', s)`: the word tokens of `s`
(CJK runs and `\w` runs, with the regex's ordered alternation). -/
def findallWords (s : String) : List String :=
  (wordRunsGo s.data none).map String.mk

example : findallWords "organic face cream" = ["organic", "face", "cream"] := by decide
example : digitRuns "score: 85 / 100" = ["85", "100"] := by decide
example : strContains "already have" "i already have this" = true := by decide
example : toLowerStr "AbC?" = "abc?" := by decide
example : pyStrip "  YES " = "YES" := by decide
example : pySplit "a.b?c." '.' = ["a", "b?c", ""] := by decide

/-! ## LLM gateway (`_call_llm`, `service_mcp.py`)

The gateway selects a provider from configuration, shapes one request,
makes one outbound call, and returns the response text; its whole body is
wrapped in one `try/except` whose handler returns the empty string. A
missing API key raises `ValueError` inside the `try` (before any call is
made) and is absorbed by the same handler. The provider itself is the
external collaborator: it is modelled as a stream `providerCall` of call
outcomes (call number `n` yields `providerCall n`), so that "no retries"
is visible as the call count. The embedding returns the text the Python
function returns together with the number of provider calls made; its
totality (return type `String × Nat`, not an exception monad) is the
translation of the fact that every path of the source either returns the
provider's text or returns `""` from the `except` handler. -/

/-- The provider selected by `LLM_PROVIDER` at process start. -/
inductive LLMProvider
  | gemini
  | anthropic
  | ollama
  | openai
deriving Repr, DecidableEq

/-- The configuration `_call_llm` reads: the provider and the API keys
(`""` models an unset environment variable, which Python treats as falsy). -/
structure LLMConfig where
  provider : LLMProvider
  geminiKey : String
  anthropicKey : String
  openaiKey : String
deriving Repr, DecidableEq

/-- `_call_llm` of `service_mcp.py`: text of the provider's response, or
`""` when the key is missing or the provider call fails; paired with the
number of provider calls made. -/
def _call_llm (cfg : LLMConfig) (providerCall : Nat → Except String String) :
    String × Nat :=
  match cfg.provider with
  | .gemini =>
      if cfg.geminiKey = "" then ("", 0)
      else
        match providerCall 0 with
        | .ok t => (t, 1)
        | .error _ => ("", 1)
  | .anthropic =>
      if cfg.anthropicKey = "" then ("", 0)
      else
        match providerCall 0 with
        | .ok t => (t, 1)
        | .error _ => ("", 1)
  | .ollama =>
      match providerCall 0 with
      | .ok t => (t, 1)
      | .error _ => ("", 1)
  | .openai =>
      if cfg.openaiKey = "" then ("", 0)
      else
        match providerCall 0 with
        | .ok t => (t, 1)
        | .error _ => ("", 1)

/-! ## Intent scorer (`_analyze_intent_score`, `backend.py`)

Primary path: the gateway's response for the scoring prompt is scanned
with `re.findall(r'\d+', ...)`; the first number is clamped to [0,100].
When no number is found (in particular when the gateway returned `""`),
the keyword fallback runs: +15 per intent keyword contained in the
lowered text, +10 if the text contains `?`, clamped to [20,100].
The gateway response is the `llm_result` argument; every operation of
the body is total, so the source's `except` branch (a second, shorter
keyword fallback) is unreachable in the embedding and is not modelled. -/

/-- The fallback's fixed intent-keyword list. -/
def intent_keywords : List String :=
  ["recommend", "recommendation", "need", "want", "looking for", "best",
   "which", "where to buy", "help me find", "seeking", "searching for"]

/-- `_analyze_intent_score` of `backend.py`, as a function of the gateway
response `llm_result` and the analyzed `text`. -/
def _analyze_intent_score (llm_result : String) (text : String) : ℤ :=
  match digitRuns llm_result with
  | n :: _ => pyMinI 100 (pyMaxI 0 (natOfDigits n.data : ℤ))
  | [] =>
      let text_lower := toLowerStr text
      let score : ℤ :=
        intent_keywords.foldl
          (fun s k => if strContains k text_lower then s + 15 else s) 0
      let score : ℤ := if charIn '?' text then score + 10 else score
      pyMinI 100 (pyMaxI 20 score)

example : _analyze_intent_score "85" "whatever" = 85 := by decide
example : _analyze_intent_score "999" "whatever" = 100 := by decide
example : _analyze_intent_score "" "need a recommendation?" = 55 := by decide
example : _analyze_intent_score "" "hello" = 20 := by decide

/-! ## Comment-match analyzer (`_analyze_comment_match` and its fallback,
`service_mcp.py`)

Primary path: the gateway response is scanned with
`re.search(r'\{[^{}]*\}', ...)` for its first brace block, which is
handed to `json.loads`; the fields `match_score` (through `float`, default
0), `needs_product` (through `bool`, default `False`) and `reason`
(default `""`) are read out and the score is clamped to [0,100]. The
library composition `json.loads` + field coercions is external and is
modelled as an input `jsonLoads : String → Option (ℚ × Bool × String)`;
`none` models every raising outcome (invalid JSON, a non-numeric
`match_score`, a non-object), which the source's `except` handler turns
into the fallback. An empty gateway response and a response with no brace
block also fall back. -/

/-- A comment-match analysis result, the dictionary the analyzer returns. -/
structure MatchResult where
  match_score : ℚ
  needs_product : Bool
  reason : String
  matched_keywords : List String
  has_need_expression : Bool
deriving Repr, DecidableEq

/-- The fallback's fixed need-expression phrases. -/
def need_keywords : List String :=
  ["need", "want", "looking for", "recommend", "where", "how", "buy",
   "anyone", "who has", "recommendation", "link", "purchase",
   "where to buy", "price", "worth", "interested", "trying",
   "suitable", "good", "worth buying", "worth it"]

/-- The fallback's fixed exclusion phrases. -/
def exclude_keywords : List String :=
  ["don't need", "don't want", "not buying", "not interested",
   "already have", "already bought"]

/-- `_analyze_comment_match_fallback` of `service_mcp.py`: deterministic
keyword scoring of a comment against a product description. -/
def _analyze_comment_match_fallback
    (comment_content product_description : String) : MatchResult :=
  let product_keywords := findallWords (toLowerStr product_description)
  let comment_lower := toLowerStr comment_content
  let has_need_expression :=
    need_keywords.any (fun k => strContains k comment_lower)
  let matched_keywords :=
    product_keywords.filter (fun k => 1 < k.length && strContains k comment_lower)
  let score1 : ℚ := if has_need_expression then 0 + 30 else 0
  let score2 : ℚ := score1 + (matched_keywords.length : ℚ) * 20
  let score3 : ℚ :=
    if 10 ≤ comment_content.length ∧ comment_content.length ≤ 200 then
      score2 + 10
    else score2
  let score4 : ℚ :=
    if exclude_keywords.any (fun k => strContains k comment_lower) then 0
    else score3
  let match_score := pyMin 100 score4
  { match_score := match_score
    needs_product := decide (40 ≤ match_score)
    reason := "Using keyword matching analysis"
    matched_keywords := matched_keywords
    has_need_expression := has_need_expression }

/-- First match of `re.search(r'\{[^{}]*\}', s, re.DOTALL)`: the leftmost
`{`, the run of non-brace characters after it, and the closing `}` that
must follow that run. -/
def braceBlockGo : List Char → Option (List Char)
  | [] => none
  | c :: t =>
      if c = '{' then
        match t.dropWhile (fun d => d ≠ '{' && d ≠ '}') with
        | '}' :: _ => some (c :: t.takeWhile (fun d => d ≠ '{' && d ≠ '}') ++ ['}'])
        | _ => braceBlockGo t
      else braceBlockGo t

/-- `_analyze_comment_match` of `service_mcp.py`, as a function of the
gateway response `llm_response` and the `json.loads` outcome `jsonLoads`. -/
def _analyze_comment_match (jsonLoads : String → Option (ℚ × Bool × String))
    (llm_response comment_content product_description : String) : MatchResult :=
  if llm_response = "" then
    _analyze_comment_match_fallback comment_content product_description
  else
    match braceBlockGo llm_response.data with
    | some jchars =>
        match jsonLoads (String.mk jchars) with
        | some (raw_score, needs, reason) =>
            { match_score := pyMax 0 (pyMin 100 raw_score)
              needs_product := needs
              reason := reason
              matched_keywords := []
              has_need_expression := needs }
        | none =>
            _analyze_comment_match_fallback comment_content product_description
    | none =>
        _analyze_comment_match_fallback comment_content product_description

/-! ## Relevance filter (`_is_post_relevant`, `platforms/reddit_platform.py`)

With no product description or no title every post passes. Otherwise the
gateway is asked for a strict YES/NO judgment and the stripped, upper-cased
response is required to contain (or start with) `YES`. The source's
`except` handler returns `True`, but the gateway never raises (it returns
`""` on failure) and every other operation of the body is total, so that
handler is unreachable in the embedding: the gateway response is the
`llm_response` argument. -/

/-- `_is_post_relevant` of `platforms/reddit_platform.py`, as a function of
the gateway response `llm_response`. -/
def _is_post_relevant (post_title product_description llm_response : String) :
    Bool :=
  if product_description = "" || post_title = "" then true
  else
    let response_lower := toUpperStr (pyStrip llm_response)
    strContains "YES" response_lower || "YES".data.isPrefixOf response_lower.data

example : _is_post_relevant "any title" "" "whatever" = true := by decide
example : _is_post_relevant "t" "p" "  yes, clearly " = true := by decide
example : _is_post_relevant "t" "p" "NO" = false := by decide

/-! ## Comment-template engine (`_generate_smart_comment`, `service_mcp.py`)

Purely local: detects content domains by keyword lookup over the lowered
title and body, selects one template of the requested type's set
uniformly at random, optionally appends a domain-jargon clause
(`professional`, one 50% draw per detected domain) and a call-to-action
suffix (`lead_gen` always, `consult` with 30% probability). An unknown
comment type falls back to `lead_gen`. Randomness is injected as a
`TemplateDraws` value: each `random.choice` is an index reduced modulo the
list length, each `random.random() > p` comparison a Boolean. The unused
`keywords`/`words` locals of the source (computed and never read) are not
modelled. -/

/-- The post-content dictionary the engine reads (`Title`, `Content`,
`Author`). -/
structure PostContentIn where
  title : String
  content : String
  author : String
deriving Repr, DecidableEq

/-- The fixed domain → keyword table. -/
def domain_keywords : List (String × List String) :=
  [("beauty", ["makeup", "cosmetics", "skincare", "beauty", "lipstick",
               "foundation", "moisturizer"]),
   ("fashion", ["fashion", "outfit", "style", "clothing", "wardrobe", "trend"]),
   ("food", ["food", "recipe", "restaurant", "cooking", "baking", "cuisine"]),
   ("travel", ["travel", "trip", "destination", "guide", "vacation", "hotel"]),
   ("parenting", ["baby", "parenting", "children", "toddler", "toys"]),
   ("tech", ["tech", "phone", "computer", "camera", "smart", "device"]),
   ("home", ["home", "decor", "furniture", "design", "interior"]),
   ("fitness", ["fitness", "workout", "exercise", "training", "gym"])]

/-- The domains whose keyword lists hit the lowered title or content, in
table order; `["lifestyle"]` when none hit. -/
def detected_domains (title content : String) : List String :=
  let ds := domain_keywords.filterMap fun dk =>
    if dk.2.any (fun key =>
        strContains key (toLowerStr title) || strContains key (toLowerStr content))
    then some dk.1 else none
  if ds.isEmpty then ["lifestyle"] else ds

/-- The fixed domain → jargon-term table of the `professional` branch. -/
def domain_terms : List (String × List String) :=
  [("beauty", ["finish", "texture", "pigmentation", "longevity", "application"]),
   ("fashion", ["fit", "cut", "silhouette", "layering", "color palette"]),
   ("food", ["flavor", "texture", "technique", "temperature", "seasoning"]),
   ("travel", ["itinerary", "guide", "experience", "local culture", "hidden spots"]),
   ("parenting", ["early education", "development", "nutrition", "interaction"]),
   ("tech", ["performance", "experience", "specs", "compatibility", "efficiency"]),
   ("home", ["space planning", "lighting", "color scheme", "functional areas"]),
   ("fitness", ["training plan", "sets", "intensity", "recovery", "metabolism"])]

/-- The fixed call-to-action endings. -/
def cta_endings : List String :=
  ["Feel free to DM me if you have more questions~",
   "Check out my profile if you're interested",
   "DM me if you want to know more",
   "Follow me for more related content",
   "DM me for surprises~"]

/-- The per-type template sets, instantiated at a first detected domain
`d`, an author, and a title (whose first 10 characters one template uses). -/
def comment_templates (comment_type : String) (d author title : String) :
    List String :=
  if comment_type = "lead_gen" then
    ["This " ++ d ++ " share is great! I'm also researching related content, feel free to DM me~",
     "Thanks for sharing, " ++ author ++ "'s insights are unique! I've also compiled some related materials, interested to chat?",
     "Your share is very insightful! I've written similar content, feel free to reach out",
     "Really like your sharing style! I also do " ++ d ++ " related content, we can follow each other",
     "Totally relate! I've encountered similar situations, DM me if you want to know more",
     "This post has so much info! Saved it, we can discuss if you have questions~"]
  else if comment_type = "like" then
    ["Awesome! " ++ author ++ "'s shares are always so practical",
     "Every time I see " ++ author ++ "'s shares I learn something, keep it up!",
     "This content is super detailed, learned a lot, thanks for sharing!",
     "Love this in-depth share, much more meaningful than typical " ++ d ++ " posts",
     "Saved and upvoted, very valuable reference",
     "This kind of high-quality content is rare, thanks for sharing"]
  else if comment_type = "consult" then
    ["Hey OP, any beginner tips for " ++ d ++ "?",
     "This " ++ d ++ " technique looks practical, is it suitable for beginners?",
     "OP's shared experience is so valuable, can you elaborate on how you got started?",
     "Very inspiring, would like to ask " ++ author ++ ", how did you reach such a professional level?",
     "Very interested in this field, any recommended learning resources to share?",
     "OP's insights are unique, could you share your learning path?"]
  else
    ["As a " ++ d ++ " practitioner, I agree with OP's points, especially about " ++ pyTake 10 title,
     "From a professional perspective, this share covers key points, I'd like to add...",
     "This analysis is spot on, I've found similar patterns in practice, totally agree",
     "Very professional share! I've been in related work for years, these methods really work",
     "The depth of this content is impressive, shows OP's professional expertise",
     "From a technical perspective, the methods OP shared are very feasible, worth trying"]

/-- `random.choice(l)`: the injected draw `i` reduced modulo the list
length. -/
def pyChoice (l : List String) (i : Nat) : String := l.getD (i % l.length) ""

/-- The injected random draws of one `_generate_smart_comment` run. -/
structure TemplateDraws where
  /-- Index drawn by `random.choice(templates[comment_type])`. -/
  templateIdx : Nat
  /-- Index drawn by `random.choice(terms)` at each `professional` loop
  iteration. -/
  termIdx : Nat → Nat
  /-- Outcome of `random.random() > 0.5` at each `professional` loop
  iteration. -/
  termCoin : Nat → Bool
  /-- Index drawn by `random.choice(endings)`. -/
  endingIdx : Nat
  /-- Outcome of `random.random() > 0.7` in the `consult` branch. -/
  consultCoin : Bool

/-- The valid comment types (the keys of the template dictionary). -/
def valid_comment_types : List String :=
  ["lead_gen", "like", "consult", "professional"]

/-- `_generate_smart_comment` of `service_mcp.py`. -/
def _generate_smart_comment (post_content : PostContentIn)
    (comment_type : String) (draws : TemplateDraws) : String :=
  let detected := detected_domains post_content.title post_content.content
  let ctype :=
    if valid_comment_types.contains comment_type then comment_type
    else "lead_gen"
  let templates :=
    comment_templates ctype (detected.headD "")
      post_content.author post_content.title
  let selected := pyChoice templates draws.templateIdx
  let selected :=
    if ctype = "professional" then
      (detected.enum.foldl (fun acc idxdom =>
        match (domain_terms.find? (fun dt => dt.1 = idxdom.2)) with
        | some dt =>
            let term := pyChoice dt.2 (draws.termIdx idxdom.1)
            if draws.termCoin idxdom.1 then
              acc ++ (", especially insights on " ++ term ++ " are unique")
            else acc
        | none => acc) selected)
    else selected
  if ctype = "lead_gen" || (ctype = "consult" && draws.consultCoin) then
    selected ++ " " ++ pyChoice cta_endings draws.endingIdx
  else selected

/-! ## Analyze flow (`analyze_product` and `process_single_post`,
`backend.py`)

The flow from the parsed search result onward: at most 5 posts are
processed; each surviving post yields one post-Lead plus comment-Leads
for up to 10 comments whose intent score reaches 40; everything is
flattened in discovery order (`asyncio.gather` returns the per-post and
per-comment task results in task-submission order, independently of
completion order) and finally sorted by `intentScore` descending with
Python's stable sort. Per-item failure isolation: a post whose content
fetch raised contributes the leads accumulated before the exception
(none), without aborting the batch; the comment fetch returns `[]` on
failure; the per-comment work is total, so `return_exceptions=True`
collects no exceptions from it. External fetch outcomes and gateway
responses arrive as fields of the input records. -/

/-- A structured comment as the analyze flow consumes it, with the
gateway response of its intent-scoring call. -/
structure CommentIn where
  username : String
  content : String
  time : String
  /-- Gateway response of `_analyze_intent_score` for this comment. -/
  llmResponse : String
deriving Repr, DecidableEq

/-- A parsed search-result post with the outcomes of its external calls:
`contentFetch = none` models `get_note_content_impl` raising (caught by
the per-post handler), `comments` the structured comment fetch (which
returns `[]` on failure internally). -/
structure PostIn where
  title : String
  url : String
  date : String
  contentFetch : Option String
  comments : List CommentIn
  /-- Gateway response of `_analyze_intent_score` for the post content. -/
  llmResponse : String
deriving Repr, DecidableEq

/-- A Lead's `type` field. -/
inductive LeadType
  | post
  | comment
deriving Repr, DecidableEq

/-- The Lead record the analyze flow returns. -/
structure Lead where
  id : String
  username : String
  platform : String
  category : String
  date : String
  title : String
  question : String
  content : String
  url : String
  intentScore : ℤ
  type : LeadType
deriving Repr, DecidableEq

/-- Helper of `extract_username_from_url`: leftmost position where
`marker` is followed by at least one non-`/` character; captures the run
of non-`/` characters after it (the regex `marker([^/]+)`). -/
def searchCapture (marker : List Char) : List Char → Option String
  | [] => none
  | c :: t =>
      if marker.isPrefixOf (c :: t) then
        let cap := ((c :: t).drop marker.length).takeWhile (fun d => d ≠ '/')
        if cap.isEmpty then searchCapture marker t else some (String.mk cap)
      else searchCapture marker t

/-- `extract_username_from_url` of `backend.py`: first match of
`/u/([^/]+)`, else of `/user/([^/]+)`. -/
def extract_username_from_url (url : String) : Option String :=
  match searchCapture "/u/".data url.data with
  | some u => some u
  | none => searchCapture "/user/".data url.data

example : extract_username_from_url "https://reddit.com/u/alice/x" = some "alice" := by decide
example : extract_username_from_url "https://reddit.com/r/aww" = none := by decide

/-- `extract_question` of `backend.py`: first `.`-separated sentence
containing `?` (stripped, with `?` re-appended), else the text truncated
to 100 characters. -/
def extract_question (text : String) : String :=
  if text = "" then ""
  else
    match (pySplit text '.').find? (fun s => charIn '?' s) with
    | some sentence => pyStrip sentence ++ "?"
    | none => if 100 < text.length then pyTake 100 text ++ "..." else text

/-- `process_comment` of `backend.py` (the per-comment closure of
`process_single_post`): a comment-Lead when the comment is non-empty and
its intent score reaches 40, `none` otherwise. -/
def process_comment (i j : Nat) (post_url : String) (c : CommentIn) :
    Option Lead :=
  if c.content = "" then none
  else
    let comment_intent := _analyze_intent_score c.llmResponse c.content
    if 40 ≤ comment_intent then
      let comment_url :=
        if strContains "/comments/" post_url then
          (pySplit post_url '?').headD "" ++ "#comment-" ++ toString j
        else post_url
      some
        { id := "comment-" ++ toString i ++ "-" ++ toString j
          username := if c.username = "" then "Unknown User" else c.username
          platform := "Reddit"
          category := "LIFESTYLE NOTE"
          date := c.time
          title := ""
          question := extract_question c.content
          content := c.content
          url := comment_url
          intentScore := comment_intent
          type := .comment }
    else none

/-- `process_single_post` of `backend.py`: the post-Lead followed by the
comment-Leads of the first 10 comments; `[]` for a post with no URL or
whose content fetch raised. -/
def process_single_post (i : Nat) (p : PostIn) : List Lead :=
  if p.url = "" then []
  else
    match p.contentFetch with
    | none => []
    | some post_content =>
        let intent_score := _analyze_intent_score p.llmResponse post_content
        let postLead : Lead :=
          { id := "post-" ++ toString i
            username := (extract_username_from_url p.url).getD "Reddit User"
            platform := "Reddit"
            category := "LIFESTYLE NOTE"
            date := p.date
            title := p.title
            question := p.title
            content := pyTake 500 post_content
            url := p.url
            intentScore := intent_score
            type := .post }
        postLead ::
          (p.comments.take 10).enum.filterMap
            (fun jc => process_comment i jc.1 p.url jc.2)

/-- The sort key of `leads.sort(key=..., reverse=True)`: a stable
descending sort by `intentScore` is a stable merge sort with this
"greater or tied" test. -/
def leadSortLe (a b : Lead) : Bool := decide (b.intentScore ≤ a.intentScore)

/-- `analyze_product` of `backend.py`, from the parsed search result
onward: process the first 5 posts, flatten the per-post lead lists in
task-submission order, and sort by `intentScore` descending. -/
def analyze_product (posts : List PostIn) : List Lead :=
  let leads :=
    ((posts.take 5).enum.map fun ip => process_single_post ip.1 ip.2).flatten
  leads.mergeSort leadSortLe

/-! ## Promote flow (`auto_promote_product`, `service_mcp.py`)

From the deduplicated, `max_posts`-capped search links onward, posts are
processed sequentially: per post the structured comments are fetched and
counted; per comment of length ≥ 5 the comment-match analyzer runs, and a
comment passing the `needs_product`/`min_match_score` gate is counted as
matched, recorded in the detail list, given a generated reply, and
dispatched exactly once through `reply_to_comment`, whose outcome is
recorded as a success (its returned text contains "success") or appended
to the failure list; a raising dispatch is caught and appended to the
failure list. The reply text (output of the total function
`_generate_reply_content`) and the dispatch outcome arrive as fields of
the input record; `dispatchAttempts` instruments the number of times the
dispatch call site is reached. `auto_promote_product_impl` (same file) is
line-for-line the same loop with `reply_to_comment_impl` and longer
delays, so this embedding covers both. -/

/-- A comment as the promote flow consumes it, with the outcomes of the
external calls made for it: the gateway response of its match analysis,
the generated reply text, and the dispatch outcome (`Except.error`
models `reply_to_comment` raising). -/
structure PromoteComment where
  content : String
  username : String
  /-- Gateway response of `_analyze_comment_match` for this comment. -/
  llmResponse : String
  /-- Output of `_generate_reply_content` (total: falls back to a
  template on any LLM failure). -/
  replyText : String
  /-- Outcome of `reply_to_comment`. -/
  dispatch : Except String String

/-- A searched post link with its comment-fetch outcome: `none` models a
per-post exception, absorbed by `continue`. -/
structure PromotePost where
  url : String
  commentsFetch : Option (List PromoteComment)

/-- An entry of the report's `FailedReplies` list. -/
structure FailedReply where
  user : String
  reason : String
deriving Repr, DecidableEq

/-- An entry of the report's `MatchedCommentDetails` list. -/
structure MatchedDetail where
  post : String
  user : String
  comment : String
  matchScore : ℚ
  reply : String
deriving Repr, DecidableEq

/-- The `results` dictionary `auto_promote_product` accumulates, plus the
`dispatchAttempts` instrumentation counter. -/
structure PromoteResults where
  searchedPosts : Nat
  analyzedComments : Nat
  matchedComments : Nat
  successfulReplies : Nat
  failedReplies : List FailedReply
  matchedCommentDetails : List MatchedDetail
  /-- Number of times the `reply_to_comment` call site was reached. -/
  dispatchAttempts : Nat
deriving Repr, DecidableEq

/-- The per-comment body of `auto_promote_product`'s loop. -/
def promote_process_comment (jsonLoads : String → Option (ℚ × Bool × String))
    (product_description : String) (min_match_score : ℚ) (post_url : String)
    (st : PromoteResults) (c : PromoteComment) : PromoteResults :=
  if c.content.length < 5 then st
  else
    let match_result :=
      _analyze_comment_match jsonLoads c.llmResponse c.content
        product_description
    if match_result.needs_product = true ∧
        min_match_score ≤ match_result.match_score then
      let st :=
        { st with
          matchedComments := st.matchedComments + 1
          matchedCommentDetails := st.matchedCommentDetails ++
            [({ post := post_url
                user := c.username
                comment := pyTake 50 c.content ++ "..."
                matchScore := match_result.match_score
                reply := c.replyText } : MatchedDetail)] }
      let st := { st with dispatchAttempts := st.dispatchAttempts + 1 }
      match c.dispatch with
      | .ok reply_result =>
          if strContains "success" (toLowerStr reply_result) then
            { st with successfulReplies := st.successfulReplies + 1 }
          else
            { st with failedReplies := st.failedReplies ++
                [({ user := c.username, reason := reply_result } : FailedReply)] }
      | .error e =>
          { st with failedReplies := st.failedReplies ++
              [({ user := c.username, reason := "Error replying: " ++ e } : FailedReply)] }
    else st

/-- The per-post body of `auto_promote_product`'s loop: a raising post is
skipped whole; otherwise its comments are counted and processed in order. -/
def promote_process_post (jsonLoads : String → Option (ℚ × Bool × String))
    (product_description : String) (min_match_score : ℚ)
    (st : PromoteResults) (p : PromotePost) : PromoteResults :=
  match p.commentsFetch with
  | none => st
  | some comments =>
      comments.foldl
        (promote_process_comment jsonLoads product_description
          min_match_score p.url)
        { st with analyzedComments := st.analyzedComments + comments.length }

/-- `auto_promote_product` of `service_mcp.py`, from the deduplicated
post links onward: the final `results` record of the run. -/
def auto_promote_product (jsonLoads : String → Option (ℚ × Bool × String))
    (product_description : String) (min_match_score : ℚ)
    (post_links : List PromotePost) : PromoteResults :=
  post_links.foldl
    (promote_process_post jsonLoads product_description min_match_score)
    { searchedPosts := post_links.length
      analyzedComments := 0
      matchedComments := 0
      successfulReplies := 0
      failedReplies := []
      matchedCommentDetails := []
      dispatchAttempts := 0 }

/-! ## Theorems -/

theorem pyMin_100_nonneg (x : ℚ) (hx : 0 ≤ x) : 0 ≤ pyMin 100 x := by
  unfold pyMin; split <;> [norm_num; linarith]

theorem pyMin_100_le (x : ℚ) : pyMin 100 x ≤ 100 := by
  unfold pyMin; split <;> [norm_num; linarith]

theorem pyMax_0_nonneg (x : ℚ) : 0 ≤ pyMax 0 x := by
  unfold pyMax; split <;> [norm_num; linarith]

theorem pyMax_0_le_100 (x : ℚ) (hx : x ≤ 100) : pyMax 0 x ≤ 100 := by
  unfold pyMax; split <;> [norm_num; linarith]

/-- The fallback's match score is always within [0, 100]. -/
theorem fallback_score_bounds (c p : String) :
    0 ≤ (_analyze_comment_match_fallback c p).match_score ∧
      (_analyze_comment_match_fallback c p).match_score ≤ 100 := by
  unfold _analyze_comment_match_fallback
  dsimp only
  refine ⟨pyMin_100_nonneg _ ?_, pyMin_100_le _⟩
  have hcount : (0 : ℚ) ≤
      (((findallWords (toLowerStr p)).filter
          (fun k => 1 < k.length && strContains k (toLowerStr c))).length : ℚ) * 20 := by
    positivity
  split
  · norm_num
  · split <;> split <;> linarith

/-- The fallback's `needs_product` flag is exactly the `score ≥ 40` test. -/
theorem fallback_needs_iff (c p : String) :
    (_analyze_comment_match_fallback c p).needs_product = true ↔
      40 ≤ (_analyze_comment_match_fallback c p).match_score := by
  unfold _analyze_comment_match_fallback
  dsimp only
  simp only [decide_eq_true_eq]

/-- An exclusion phrase in the lowered comment forces the fallback's
score to 0. -/
theorem fallback_exclusion_zero (c p : String)
    (h : ∃ kw ∈ exclude_keywords, strContains kw (toLowerStr c) = true) :
    (_analyze_comment_match_fallback c p).match_score = 0 := by
  unfold _analyze_comment_match_fallback
  dsimp only
  have hany : exclude_keywords.any (fun k => strContains k (toLowerStr c)) = true :=
    List.any_eq_true.mpr h
  rw [if_pos hany]
  unfold pyMin
  norm_num

/-- C1: for every comment text and product description, the fallback
comment-match analyzer returns a `match_score` in [0, 100] with
`needs_product` true exactly when the final score reaches 40, and the
presence of any exclusion phrase in the lowered comment forces the score
to exactly 0 (hence `needs_product = false`) regardless of the
need-expression bonus, matched product keywords, or length bonus. -/
theorem analyzer_fallback_exclusion_forces_zero (c p : String) :
    (0 ≤ (_analyze_comment_match_fallback c p).match_score ∧
      (_analyze_comment_match_fallback c p).match_score ≤ 100) ∧
    ((_analyze_comment_match_fallback c p).needs_product = true ↔
      40 ≤ (_analyze_comment_match_fallback c p).match_score) ∧
    ((∃ kw ∈ exclude_keywords, strContains kw (toLowerStr c) = true) →
      (_analyze_comment_match_fallback c p).match_score = 0 ∧
      (_analyze_comment_match_fallback c p).needs_product = false) := by
  refine ⟨fallback_score_bounds c p, fallback_needs_iff c p, fun h => ?_⟩
  have h0 := fallback_exclusion_zero c p h
  refine ⟨h0, ?_⟩
  cases hnp : (_analyze_comment_match_fallback c p).needs_product
  · rfl
  · have h40 := (fallback_needs_iff c p).mp hnp
    rw [h0] at h40
    norm_num at h40

/-- Witness for C1: the spec's own example comment contains the exclusion
phrase "already have", and the analyzer's score on it is forced to 0. -/
theorem analyzer_fallback_exclusion_forces_zero_witness :
    (∃ kw ∈ exclude_keywords,
      strContains kw
        (toLowerStr "I already have this and love it, where can I buy more?") = true) ∧
    (_analyze_comment_match_fallback
        "I already have this and love it, where can I buy more?"
        "organic face cream").match_score = 0 ∧
    (_analyze_comment_match_fallback
        "I already have this and love it, where can I buy more?"
        "organic face cream").needs_product = false :=
  ⟨by decide,
    (analyzer_fallback_exclusion_forces_zero
      "I already have this and love it, where can I buy more?"
      "organic face cream").2.2 (by decide)⟩

/-- C9: on the fallback path the comment-match analyzer is a pure,
deterministic function of its two text inputs: calls with identical
inputs return identical `match_score`, `needs_product`,
`matched_keywords` and `has_need_expression`. -/
theorem analyzer_fallback_deterministic (c₁ p₁ c₂ p₂ : String)
    (hc : c₁ = c₂) (hp : p₁ = p₂) :
    (_analyze_comment_match_fallback c₁ p₁).match_score =
        (_analyze_comment_match_fallback c₂ p₂).match_score ∧
    (_analyze_comment_match_fallback c₁ p₁).needs_product =
        (_analyze_comment_match_fallback c₂ p₂).needs_product ∧
    (_analyze_comment_match_fallback c₁ p₁).matched_keywords =
        (_analyze_comment_match_fallback c₂ p₂).matched_keywords ∧
    (_analyze_comment_match_fallback c₁ p₁).has_need_expression =
        (_analyze_comment_match_fallback c₂ p₂).has_need_expression := by
  subst hc
  subst hp
  exact ⟨rfl, rfl, rfl, rfl⟩

/-- Witness for C9 at a concrete repeated call. -/
theorem analyzer_fallback_deterministic_witness :
    (_analyze_comment_match_fallback "need a face cream" "face cream").match_score =
        (_analyze_comment_match_fallback "need a face cream" "face cream").match_score ∧
    (_analyze_comment_match_fallback "need a face cream" "face cream").needs_product =
        (_analyze_comment_match_fallback "need a face cream" "face cream").needs_product ∧
    (_analyze_comment_match_fallback "need a face cream" "face cream").matched_keywords =
        (_analyze_comment_match_fallback "need a face cream" "face cream").matched_keywords ∧
    (_analyze_comment_match_fallback "need a face cream" "face cream").has_need_expression =
        (_analyze_comment_match_fallback "need a face cream" "face cream").has_need_expression :=
  analyzer_fallback_deterministic "need a face cream" "face cream"
    "need a face cream" "face cream" rfl rfl

/-- C2: the intent scorer always returns an integer in [0, 100], and when
the LLM path fails (no digit run in the gateway response, in particular an
empty response) the keyword fallback's floor makes the result at least 20. -/
theorem intent_score_range (llm text : String) :
    (0 ≤ _analyze_intent_score llm text ∧ _analyze_intent_score llm text ≤ 100) ∧
    (digitRuns llm = [] → 20 ≤ _analyze_intent_score llm text) := by
  unfold _analyze_intent_score
  cases hd : digitRuns llm with
  | cons n t =>
      dsimp only
      refine ⟨?_, fun h => absurd h (by simp)⟩
      unfold pyMinI pyMaxI
      split_ifs <;> omega
  | nil =>
      dsimp only
      constructor
      · unfold pyMinI pyMaxI
        split_ifs <;> constructor <;> omega
      · intro _
        unfold pyMinI pyMaxI
        split_ifs <;> omega

/-- Witness for C2: with an empty gateway response (the gateway's failure
mode) the fallback floor holds on a concrete text. -/
theorem intent_score_range_witness :
    (0 ≤ _analyze_intent_score "" "hello there" ∧
      _analyze_intent_score "" "hello there" ≤ 100) ∧
    20 ≤ _analyze_intent_score "" "hello there" :=
  ⟨(intent_score_range "" "hello there").1,
    (intent_score_range "" "hello there").2 (by decide)⟩

/-- C7: the LLM gateway fails soft: for every configuration and provider
behaviour it makes at most one provider call (no retries), and whenever
the provider call errors the gateway returns the empty string — it never
surfaces an exception to its caller (the embedding is total into
`String × Nat`). -/
theorem call_llm_fails_soft (cfg : LLMConfig)
    (providerCall : Nat → Except String String) :
    (_call_llm cfg providerCall).2 ≤ 1 ∧
    (∀ e, providerCall 0 = Except.error e →
      (_call_llm cfg providerCall).1 = "") := by
  unfold _call_llm
  cases cfg.provider <;> dsimp only
  case ollama =>
    cases hpc : providerCall 0 with
    | ok t => exact ⟨Nat.le_refl 1, fun e he => by cases he⟩
    | error e0 => exact ⟨Nat.le_refl 1, fun e he => rfl⟩
  all_goals
    split
    · exact ⟨Nat.zero_le 1, fun e he => rfl⟩
    · cases hpc : providerCall 0 with
      | ok t => exact ⟨Nat.le_refl 1, fun e he => by cases he⟩
      | error e0 => exact ⟨Nat.le_refl 1, fun e he => rfl⟩

/-- Witness for C7: a concrete failing provider call yields the empty
string. -/
theorem call_llm_fails_soft_witness :
    (_call_llm ⟨.ollama, "", "", ""⟩
        (fun _ => Except.error "connection refused")).1 = "" :=
  (call_llm_fails_soft ⟨.ollama, "", "", ""⟩
      (fun _ => Except.error "connection refused")).2 "connection refused" rfl

/-- C3 (failing input of the code bug): with a non-empty title and
product description and an empty gateway response — the gateway's
documented failure mode — `_is_post_relevant` returns `false`, while the
spec's stated policy (and the source's own "include the post by default"
comment in its unreachable `except` handler) requires `true`. -/
theorem relevance_filter_drops_post_on_empty_response :
    _is_post_relevant "Looking for an organic face cream"
      "organic face cream" "" = false := by decide

/-- General form of the C3 divergence: for every non-empty title and
non-empty product description, an empty gateway response makes
`_is_post_relevant` return `false`, not the claimed default `true`. -/
theorem relevance_filter_empty_response_general (title desc : String)
    (ht : title ≠ "") (hd : desc ≠ "") :
    _is_post_relevant title desc "" = false := by
  unfold _is_post_relevant
  rw [if_neg]
  · decide
  · simp [ht, hd]

theorem ne_empty_append (a b : String) (h : a ≠ "") : a ++ b ≠ "" := by
  intro hc
  apply h
  have h2 := congrArg String.length hc
  rw [String.length_append] at h2
  have hz : a.length = 0 := by simp at h2; omega
  cases a with
  | mk data =>
      cases data with
      | nil => rfl
      | cons c t => simp [String.length] at hz

theorem pyChoice_mem (l : List String) (hl : l ≠ []) (i : Nat) :
    pyChoice l i ∈ l := by
  unfold pyChoice
  have hlen : 0 < l.length := List.length_pos.mpr hl
  have hlt : i % l.length < l.length := Nat.mod_lt _ hlen
  rw [List.getD_eq_getElem?_getD, List.getElem?_eq_getElem hlt]
  simp

theorem comment_templates_ne_nil (ty d a ti : String) :
    comment_templates ty d a ti ≠ [] := by
  unfold comment_templates
  split_ifs <;> simp

theorem comment_templates_ne_empty (ty d a ti : String) :
    ∀ t ∈ comment_templates ty d a ti, t ≠ "" := by
  intro t ht
  unfold comment_templates at ht
  split_ifs at ht <;>
    simp only [List.mem_cons, List.not_mem_nil, or_false] at ht <;>
    rcases ht with rfl | rfl | rfl | rfl | rfl | rfl <;>
    first
      | decide
      | exact ne_empty_append _ _ (by decide)
      | exact ne_empty_append _ _ (ne_empty_append _ _ (by decide))
      | exact ne_empty_append _ _
          (ne_empty_append _ _ (ne_empty_append _ _ (by decide)))

/-- A fold whose step only ever appends to its accumulator extends the
initial string. -/
theorem foldl_extends {α : Type} (step : String → α → String)
    (hstep : ∀ s a, ∃ u, step s a = s ++ u) (l : List α) :
    ∀ s : String, ∃ t, l.foldl step s = s ++ t := by
  induction l with
  | nil =>
      intro s
      exact ⟨"", (String.append_empty s).symm⟩
  | cons a l ih =>
      intro s
      obtain ⟨u, hu⟩ := hstep s a
      obtain ⟨t, ht⟩ := ih (step s a)
      exact ⟨u ++ t, by rw [List.foldl_cons, ht, hu, String.append_assoc]⟩

/-- C8: the comment-template engine always returns a non-empty string
built from (a template of) the requested type's template set when the
type is valid, and from the `lead_gen` set otherwise: the result is some
member of that set, possibly extended by appended jargon/call-to-action
suffixes, for every post content and every random draw. -/
theorem smart_comment_nonempty_from_type_set (post : PostContentIn)
    (comment_type : String) (draws : TemplateDraws) :
    _generate_smart_comment post comment_type draws ≠ "" ∧
    (∃ t ∈ comment_templates
        (if valid_comment_types.contains comment_type then comment_type
         else "lead_gen")
        ((detected_domains post.title post.content).headD "")
        post.author post.title,
      ∃ suffix,
        _generate_smart_comment post comment_type draws = t ++ suffix) := by
  unfold _generate_smart_comment
  dsimp only
  set ty :=
    (if valid_comment_types.contains comment_type then comment_type
     else "lead_gen") with hty
  set tmpls :=
    comment_templates ty ((detected_domains post.title post.content).headD "")
      post.author post.title with htmpls
  set sel := pyChoice tmpls draws.templateIdx with hsel
  have hmem : sel ∈ tmpls := pyChoice_mem _ (comment_templates_ne_nil _ _ _ _) _
  have hstep : ∀ (s : String) (a : Nat × String),
      ∃ u, (match domain_terms.find? (fun dt => dt.1 = a.2) with
            | some dt =>
                if draws.termCoin a.1 then
                  s ++ (", especially insights on " ++
                    pyChoice dt.2 (draws.termIdx a.1) ++ " are unique")
                else s
            | none => s) = s ++ u := by
    intro s a
    cases domain_terms.find? (fun dt => dt.1 = a.2) with
    | some dt =>
        dsimp only
        split
        · exact ⟨_, rfl⟩
        · exact ⟨"", (String.append_empty s).symm⟩
    | none => exact ⟨"", (String.append_empty s).symm⟩
  have hfold : ∃ u,
      (if ty = "professional" then
        (detected_domains post.title post.content).enum.foldl
          (fun acc idxdom =>
            match domain_terms.find? (fun dt => dt.1 = idxdom.2) with
            | some dt =>
                if draws.termCoin idxdom.1 then
                  acc ++ (", especially insights on " ++
                    pyChoice dt.2 (draws.termIdx idxdom.1) ++ " are unique")
                else acc
            | none => acc) sel
       else sel) = sel ++ u := by
    split
    · exact foldl_extends _ hstep _ sel
    · exact ⟨"", (String.append_empty sel).symm⟩
  obtain ⟨u, hu⟩ := hfold
  have hout : ∃ suffix,
      (if ty = "lead_gen" || (ty = "consult" && draws.consultCoin) then
        (if ty = "professional" then
          (detected_domains post.title post.content).enum.foldl
            (fun acc idxdom =>
              match domain_terms.find? (fun dt => dt.1 = idxdom.2) with
              | some dt =>
                  if draws.termCoin idxdom.1 then
                    acc ++ (", especially insights on " ++
                      pyChoice dt.2 (draws.termIdx idxdom.1) ++ " are unique")
                  else acc
              | none => acc) sel
         else sel) ++ " " ++ pyChoice cta_endings draws.endingIdx
       else
        (if ty = "professional" then
          (detected_domains post.title post.content).enum.foldl
            (fun acc idxdom =>
              match domain_terms.find? (fun dt => dt.1 = idxdom.2) with
              | some dt =>
                  if draws.termCoin idxdom.1 then
                    acc ++ (", especially insights on " ++
                      pyChoice dt.2 (draws.termIdx idxdom.1) ++ " are unique")
                  else acc
              | none => acc) sel
         else sel)) = sel ++ suffix := by
    split
    · refine ⟨u ++ (" " ++ pyChoice cta_endings draws.endingIdx), ?_⟩
      rw [hu, String.append_assoc, String.append_assoc]
    · exact ⟨u, hu⟩
  obtain ⟨suffix, hsuf⟩ := hout
  rw [hsuf]
  exact ⟨ne_empty_append _ _ (comment_templates_ne_empty _ _ _ _ sel hmem),
    ⟨sel, hmem, suffix, rfl⟩⟩

/-- C5: the analyze flow's Lead list is sorted by `intentScore` in
descending order: any two adjacent leads satisfy
`L1.intentScore ≥ L2.intentScore`, for every input (hence independently
of task-completion order: the embedding collects the per-post and
per-comment results in task-submission order and the final order is
produced by the sort alone). -/
theorem analyze_product_sorted_desc (posts : List PostIn) :
    List.Chain' (fun L1 L2 => L2.intentScore ≤ L1.intentScore)
      (analyze_product posts) := by
  unfold analyze_product
  dsimp only
  have htrans : ∀ (a b c : Lead), leadSortLe a b = true →
      leadSortLe b c = true → leadSortLe a c = true := by
    intro a b c hab hbc
    simp only [leadSortLe, decide_eq_true_eq] at hab hbc ⊢
    omega
  have htotal : ∀ (a b : Lead), (leadSortLe a b || leadSortLe b a) = true := by
    intro a b
    simp only [leadSortLe, Bool.or_eq_true, decide_eq_true_eq]
    omega
  have hp := List.sorted_mergeSort htrans htotal
    (((posts.take 5).enum.map fun ip => process_single_post ip.1 ip.2).flatten)
  exact (hp.imp (fun h => by
    simpa only [leadSortLe, decide_eq_true_eq] using h)).chain'

/-- Each processed post contributes at most 1 post-Lead and 10
comment-Leads. -/
theorem process_single_post_length_le (i : Nat) (p : PostIn) :
    (process_single_post i p).length ≤ 11 := by
  unfold process_single_post
  split
  · simp
  · cases p.contentFetch with
    | none => simp
    | some content =>
        dsimp only
        simp only [List.length_cons]
        have h1 := List.length_filterMap_le
          (fun jc : Nat × CommentIn => process_comment i jc.1 p.url jc.2)
          (p.comments.take 10).enum
        have h2 : (p.comments.take 10).enum.length ≤ 10 := by
          rw [List.enum_length, List.length_take]
          omega
        omega

/-- Comment-Leads are produced only for comments whose intent score
reaches 40, and carry that score. -/
theorem process_single_post_comment_ge (i : Nat) (p : PostIn) :
    ∀ L ∈ process_single_post i p, L.type = LeadType.comment →
      40 ≤ L.intentScore := by
  intro L hL htype
  unfold process_single_post at hL
  split at hL
  · cases hL
  · cases hcf : p.contentFetch with
    | none => rw [hcf] at hL; cases hL
    | some content =>
        rw [hcf] at hL
        dsimp only at hL
        rcases List.mem_cons.mp hL with heq | hmem
        · rw [heq] at htype; cases htype
        · obtain ⟨jc, _, heq⟩ := List.mem_filterMap.mp hmem
          unfold process_comment at heq
          split at heq
          · cases heq
          · dsimp only at heq
            by_cases h40 : 40 ≤ _analyze_intent_score jc.2.llmResponse jc.2.content
            · rw [if_pos h40] at heq
              have hL2 := Option.some.inj heq
              rw [← hL2]
              exact h40
            · rw [if_neg h40] at heq
              cases heq

/-- A flatten of lists each bounded by `k` is bounded by `k` times the
count. -/
theorem flatten_length_le {α : Type} (ls : List (List α)) (k : Nat)
    (h : ∀ x ∈ ls, x.length ≤ k) : ls.flatten.length ≤ k * ls.length := by
  induction ls with
  | nil => simp
  | cons a l ih =>
      simp only [List.flatten_cons, List.length_append, List.length_cons]
      have ha := h a (List.mem_cons_self a l)
      have hl := ih (fun x hx => h x (List.mem_cons.mpr (Or.inr hx)))
      rw [Nat.mul_succ]
      omega

/-- A processed post (non-empty URL, content fetched) always yields its
post-Lead. -/
theorem process_single_post_has_post_lead (i : Nat) (p : PostIn)
    (hurl : p.url ≠ "") (content : String)
    (hcf : p.contentFetch = some content) :
    ∃ L ∈ process_single_post i p, L.type = LeadType.post ∧ L.url = p.url := by
  unfold process_single_post
  rw [if_neg hurl, hcf]
  dsimp only
  exact ⟨_, List.mem_cons_self _ _, rfl, rfl⟩

/-- C6: the analyze flow processes at most 5 posts and 10 comments per
post, so the Lead list has at most 55 entries; every comment-Lead scores
at least 40; and every processed post (non-empty URL, content fetch
returned) contributes its post-Lead. -/
theorem analyze_product_caps (posts : List PostIn) :
    (analyze_product posts).length ≤ 55 ∧
    (∀ L ∈ analyze_product posts, L.type = LeadType.comment →
      40 ≤ L.intentScore) ∧
    (∀ p ∈ posts.take 5, p.url ≠ "" → ∀ content,
      p.contentFetch = some content →
      ∃ L ∈ analyze_product posts, L.type = LeadType.post ∧
        L.url = p.url) := by
  refine ⟨?_, ?_, ?_⟩
  · unfold analyze_product
    dsimp only
    have hperm := List.mergeSort_perm
      (((posts.take 5).enum.map fun ip => process_single_post ip.1 ip.2).flatten)
      leadSortLe
    rw [hperm.length_eq]
    have hb := flatten_length_le
      ((posts.take 5).enum.map fun ip => process_single_post ip.1 ip.2) 11
      (by
        intro x hx
        obtain ⟨ip, _, rfl⟩ := List.mem_map.mp hx
        exact process_single_post_length_le ip.1 ip.2)
    have hlen :
        ((posts.take 5).enum.map fun ip => process_single_post ip.1 ip.2).length ≤ 5 := by
      rw [List.length_map, List.enum_length, List.length_take]
      omega
    omega
  · intro L hL htype
    unfold analyze_product at hL
    dsimp only at hL
    rw [List.mem_mergeSort] at hL
    obtain ⟨sub, hsub, hLsub⟩ := List.mem_flatten.mp hL
    obtain ⟨ip, _, rfl⟩ := List.mem_map.mp hsub
    exact process_single_post_comment_ge ip.1 ip.2 L hLsub htype
  · intro p hp hurl content hcf
    obtain ⟨i, hi, hgi⟩ := List.mem_iff_getElem.mp hp
    obtain ⟨L, hLmem, hLty, hLurl⟩ :=
      process_single_post_has_post_lead i p hurl content hcf
    refine ⟨L, ?_, hLty, hLurl⟩
    unfold analyze_product
    dsimp only
    rw [List.mem_mergeSort]
    refine List.mem_flatten.mpr ⟨process_single_post i p, ?_, hLmem⟩
    refine List.mem_map.mpr ⟨(i, p), ?_, rfl⟩
    have hlt : i < (posts.take 5).enum.length := by
      rw [List.enum_length]
      exact hi
    have hgeti : (posts.take 5).enum[i] = (i, p) := by
      rw [List.getElem_enum, hgi]
    rw [← hgeti]
    exact List.getElem_mem hlt

/-- Witness for C6 at a concrete one-post input: the caps hold and the
processed post's post-Lead is present. -/
theorem analyze_product_caps_witness :
    (analyze_product
        [⟨"t", "https://www.reddit.com/r/a/comments/1", "2024", some "content",
          [], "80"⟩]).length ≤ 55 ∧
    ∃ L ∈ analyze_product
        [⟨"t", "https://www.reddit.com/r/a/comments/1", "2024", some "content",
          [], "80"⟩],
      L.type = LeadType.post ∧ L.url = "https://www.reddit.com/r/a/comments/1" :=
  ⟨(analyze_product_caps _).1,
    (analyze_product_caps _).2.2
      ⟨"t", "https://www.reddit.com/r/a/comments/1", "2024", some "content",
        [], "80"⟩
      (by decide) (by decide) "content" rfl⟩

/-- Generic fold-invariant preservation. -/
theorem foldl_invariant {α β : Type} (f : β → α → β) (P : β → Prop)
    (h : ∀ s a, P s → P (f s a)) (l : List α) :
    ∀ s, P s → P (l.foldl f s) := by
  induction l with
  | nil => intro s hs; exact hs
  | cons a l ih =>
      intro s hs
      exact ih (f s a) (h s a hs)

/-- Both paths of the comment-match analyzer clamp the score to at
most 100. -/
theorem analyze_comment_match_score_le
    (jsonLoads : String → Option (ℚ × Bool × String)) (r c p : String) :
    (_analyze_comment_match jsonLoads r c p).match_score ≤ 100 := by
  unfold _analyze_comment_match
  split
  · exact (fallback_score_bounds c p).2
  · split
    · split
      · exact pyMax_0_le_100 _ (pyMin_100_le _)
      · exact (fallback_score_bounds c p).2
    · exact (fallback_score_bounds c p).2

/-- With a threshold above 100 no comment can pass the match gate, so
the per-comment step leaves the state untouched. -/
theorem promote_process_comment_skip
    (jsonLoads : String → Option (ℚ × Bool × String))
    (desc : String) (minScore : ℚ) (url : String)
    (st : PromoteResults) (c : PromoteComment) (h : 100 < minScore) :
    promote_process_comment jsonLoads desc minScore url st c = st := by
  unfold promote_process_comment
  split
  · rfl
  · have hnot :
        ¬((_analyze_comment_match jsonLoads c.llmResponse c.content
            desc).needs_product = true ∧
          minScore ≤ (_analyze_comment_match jsonLoads c.llmResponse c.content
            desc).match_score) := by
      rintro ⟨-, hge⟩
      have hs := analyze_comment_match_score_le jsonLoads c.llmResponse
        c.content desc
      linarith
    rw [if_neg hnot]

/-- C4: in the promote flow, a `min_match_score` strictly above 100
(e.g. 100.1) makes `MatchedComments` zero and keeps the reply-dispatch
branch unreached, for every search result, comment, analyzer outcome and
dispatch outcome, because both analyzer paths clamp the match score to at
most 100. -/
theorem promote_no_match_above_100
    (jsonLoads : String → Option (ℚ × Bool × String))
    (desc : String) (minScore : ℚ) (posts : List PromotePost)
    (h : 100 < minScore) :
    (auto_promote_product jsonLoads desc minScore posts).matchedComments = 0 ∧
    (auto_promote_product jsonLoads desc minScore posts).dispatchAttempts = 0 ∧
    (auto_promote_product jsonLoads desc minScore posts).successfulReplies = 0 ∧
    (auto_promote_product jsonLoads desc minScore posts).failedReplies = [] ∧
    (auto_promote_product jsonLoads desc minScore posts).matchedCommentDetails
      = [] := by
  unfold auto_promote_product
  exact foldl_invariant _
    (fun (st : PromoteResults) => st.matchedComments = 0 ∧ st.dispatchAttempts = 0 ∧
      st.successfulReplies = 0 ∧ st.failedReplies = [] ∧
      st.matchedCommentDetails = [])
    (by
      intro st p hst
      unfold promote_process_post
      cases p.commentsFetch with
      | none => exact hst
      | some comments =>
          dsimp only
          refine foldl_invariant _
            (fun (st : PromoteResults) => st.matchedComments = 0 ∧
              st.dispatchAttempts = 0 ∧ st.successfulReplies = 0 ∧
              st.failedReplies = [] ∧ st.matchedCommentDetails = [])
            ?_ comments _ ?_
          · intro s c hs
            rw [promote_process_comment_skip jsonLoads desc minScore p.url s c h]
            exact hs
          · exact hst)
    posts _ ⟨rfl, rfl, rfl, rfl, rfl⟩

/-- Witness for C4: `min_match_score = 100.1` on a concrete run with one
post and one otherwise-matching comment yields zero matches and no
dispatch attempt. -/
theorem promote_no_match_above_100_witness :
    (auto_promote_product (fun _ => none) "face cream" (mkRat 1001 10)
        [⟨"https://www.reddit.com/r/a/comments/1",
          some [⟨"where can I buy a face cream?", "u1", "", "reply text",
            Except.ok "Successfully posted"⟩]⟩]).matchedComments = 0 ∧
    (auto_promote_product (fun _ => none) "face cream" (mkRat 1001 10)
        [⟨"https://www.reddit.com/r/a/comments/1",
          some [⟨"where can I buy a face cream?", "u1", "", "reply text",
            Except.ok "Successfully posted"⟩]⟩]).dispatchAttempts = 0 :=
  ⟨(promote_no_match_above_100 (fun _ => none) "face cream" (mkRat 1001 10)
      [⟨"https://www.reddit.com/r/a/comments/1",
        some [⟨"where can I buy a face cream?", "u1", "", "reply text",
          Except.ok "Successfully posted"⟩]⟩] (by decide)).1,
    (promote_no_match_above_100 (fun _ => none) "face cream" (mkRat 1001 10)
      [⟨"https://www.reddit.com/r/a/comments/1",
        some [⟨"where can I buy a face cream?", "u1", "", "reply text",
          Except.ok "Successfully posted"⟩]⟩] (by decide)).2.1⟩

/-- The C10 invariant is preserved by one per-comment step: a matched
comment adds one to `MatchedComments`, one detail entry, and exactly one
dispatch whose outcome lands in `SuccessfulReplies` or `FailedReplies`. -/
theorem promote_process_comment_invariant
    (jsonLoads : String → Option (ℚ × Bool × String))
    (desc : String) (minScore : ℚ) (url : String)
    (st : PromoteResults) (c : PromoteComment)
    (h : st.matchedComments = st.successfulReplies + st.failedReplies.length ∧
      st.matchedCommentDetails.length = st.matchedComments ∧
      st.dispatchAttempts = st.matchedComments) :
    (promote_process_comment jsonLoads desc minScore url st c).matchedComments =
        (promote_process_comment jsonLoads desc minScore url st c).successfulReplies +
        (promote_process_comment jsonLoads desc minScore url st c).failedReplies.length ∧
    (promote_process_comment jsonLoads desc minScore url st c).matchedCommentDetails.length =
        (promote_process_comment jsonLoads desc minScore url st c).matchedComments ∧
    (promote_process_comment jsonLoads desc minScore url st c).dispatchAttempts =
        (promote_process_comment jsonLoads desc minScore url st c).matchedComments := by
  obtain ⟨h1, h2, h3⟩ := h
  unfold promote_process_comment
  split
  · exact ⟨h1, h2, h3⟩
  · by_cases hgate :
        (_analyze_comment_match jsonLoads c.llmResponse c.content
          desc).needs_product = true ∧
        minScore ≤ (_analyze_comment_match jsonLoads c.llmResponse c.content
          desc).match_score
    · rw [if_pos hgate]
      dsimp only
      cases hd : c.dispatch with
      | ok reply_result =>
          dsimp only
          by_cases hsucc : strContains "success" (toLowerStr reply_result) = true
          · rw [if_pos hsucc]
            dsimp only
            simp only [List.length_append, List.length_cons, List.length_nil]
            omega
          · rw [if_neg hsucc]
            dsimp only
            simp only [List.length_append, List.length_cons, List.length_nil]
            omega
      | error e =>
          dsimp only
          simp only [List.length_append, List.length_cons, List.length_nil]
          omega
    · rw [if_neg hgate]
      exact ⟨h1, h2, h3⟩

/-- C10: in the promote flow's final report, `MatchedComments` equals
`SuccessfulReplies` plus the number of `FailedReplies` entries,
`MatchedCommentDetails` has exactly `MatchedComments` entries, and every
matched comment received exactly one dispatch attempt
(`dispatchAttempts = MatchedComments`). -/
theorem promote_report_invariant
    (jsonLoads : String → Option (ℚ × Bool × String))
    (desc : String) (minScore : ℚ) (posts : List PromotePost) :
    (auto_promote_product jsonLoads desc minScore posts).matchedComments =
        (auto_promote_product jsonLoads desc minScore posts).successfulReplies +
        (auto_promote_product jsonLoads desc minScore posts).failedReplies.length ∧
    (auto_promote_product jsonLoads desc minScore
        posts).matchedCommentDetails.length =
        (auto_promote_product jsonLoads desc minScore posts).matchedComments ∧
    (auto_promote_product jsonLoads desc minScore posts).dispatchAttempts =
        (auto_promote_product jsonLoads desc minScore posts).matchedComments := by
  unfold auto_promote_product
  exact foldl_invariant _
    (fun (st : PromoteResults) =>
      st.matchedComments = st.successfulReplies + st.failedReplies.length ∧
      st.matchedCommentDetails.length = st.matchedComments ∧
      st.dispatchAttempts = st.matchedComments)
    (by
      intro st p hst
      unfold promote_process_post
      cases p.commentsFetch with
      | none => exact hst
      | some comments =>
          dsimp only
          refine foldl_invariant _
            (fun (st : PromoteResults) =>
              st.matchedComments = st.successfulReplies +
                st.failedReplies.length ∧
              st.matchedCommentDetails.length = st.matchedComments ∧
              st.dispatchAttempts = st.matchedComments)
            ?_ comments _ ?_
          · intro s c hs
            exact promote_process_comment_invariant jsonLoads desc minScore
              p.url s c hs
          · exact hst)
    posts _ ⟨rfl, rfl, rfl⟩
